import Mathlib

/-
  Verification development for the Titan Terminal finance application.

  The repository ships a single CLI driver (titan_terminal.py).  Its AI
  engine (modules/ai_engine.py: AIEngine, build_analysis_prompt, the
  multi-model orchestrator, consensus builder and summary synthesizer) is
  imported by the driver but its code is not part of the checked sources,
  so those components are modelled from the specification; the watchlist
  and ticker-search helpers are embedded directly from titan_terminal.py.
-/

namespace Titan

/-! ## Core data model (modelled from the spec, section 3) -/

/-- Modelled from the spec: the classified directional conclusion of a
single model report (modules/ai_engine.py is absent from the sources). -/
inductive Verdict
  | bullish
  | bearish
  | neutral
  | unknown
deriving DecidableEq, Repr

/-- Modelled from the spec: terminal status of one model worker
(modules/ai_engine.py is absent from the sources). -/
inductive RStatus
  | success
  | failure
  | timeout
deriving DecidableEq, Repr

/-- Modelled from the spec: the per-model report record
(modules/ai_engine.py is absent from the sources). -/
structure ModelReport where
  model_id : String
  status : RStatus
  raw_text : String
  verdict : Verdict
  error_detail : Option String
deriving DecidableEq, Repr

/-- Modelled from the spec: outcome of one backend inference interaction,
after the worker's internal retry policy has run its course
(modules/ai_engine.py is absent from the sources). -/
inductive BackendOutcome
  | ok (text : String)
  | connFailure (msg : String)
  | timeout
  | protocolError (msg : String)
deriving DecidableEq, Repr

/-! ## Verdict classification (spec section 4.3, step 2) -/

/-- Whether the first list is an initial segment of the second. -/
def leadsWith : List Char → List Char → Bool
  | [], _ => true
  | _ :: _, [] => false
  | p :: ps, c :: cs => p == c && leadsWith ps cs

/-- Whether the pattern occurs contiguously somewhere in the text. -/
def hasSub (pat : List Char) : List Char → Bool
  | [] => pat.isEmpty
  | c :: rest => leadsWith pat (c :: rest) || hasSub pat rest

/-- Lower-cased character list of a string. -/
def lower_chars (s : String) : List Char :=
  s.toList.map Char.toLower

/-- Modelled from the spec: classify a report's raw text case-insensitively
against a small fixed vocabulary of indicator phrases; the first decisive
match wins, no match yields the unknown verdict
(modules/ai_engine.py is absent from the sources). -/
def classify_verdict (text : String) : Verdict :=
  let t := lower_chars text
  if hasSub (lower_chars ("bullish")) t then Verdict.bullish
  else if hasSub (lower_chars ("bearish")) t then Verdict.bearish
  else if hasSub (lower_chars ("neutral")) t then Verdict.neutral
  else Verdict.unknown

/-! ## Worker (spec section 4.2, per-worker policy) -/

/-- Modelled from the spec: a worker converts its backend outcome into a
terminal ModelReport; errors are recovered locally, never raised
(modules/ai_engine.py is absent from the sources). -/
def run_worker (model_id : String) (o : BackendOutcome) : ModelReport :=
  match o with
  | BackendOutcome.ok text =>
      { model_id := model_id, status := RStatus.success, raw_text := text,
        verdict := classify_verdict text, error_detail := none }
  | BackendOutcome.connFailure msg =>
      { model_id := model_id, status := RStatus.failure, raw_text := "",
        verdict := Verdict.unknown, error_detail := some msg }
  | BackendOutcome.timeout =>
      { model_id := model_id, status := RStatus.timeout, raw_text := "",
        verdict := Verdict.unknown, error_detail := some ("timed out") }
  | BackendOutcome.protocolError msg =>
      { model_id := model_id, status := RStatus.failure, raw_text := "",
        verdict := Verdict.unknown, error_detail := some msg }

/-- A placeholder report used only as the default of list lookups. -/
def dummy_report : ModelReport :=
  run_worker ("") BackendOutcome.timeout

/-! ## Orchestrator (spec sections 4.2 and 5)

The orchestrator owns a pre-sized results container; each worker owns the
disjoint slot given by its configuration index, and workers finish in an
arbitrary completion order.  The slot map is modelled as a function from
slot index to optional report, and the completion order as the list of
slot indices in the order the workers finish. -/

/-- The report produced by the worker at configuration index i. -/
def worker_report (models : List String) (outcomes : ℕ → BackendOutcome)
    (i : ℕ) : ModelReport :=
  run_worker (models.getD i ("")) (outcomes i)

/-- Modelled from the spec: workers write their reports into their
pre-assigned slots in completion order
(modules/ai_engine.py is absent from the sources). -/
def fill_slots (rep : ℕ → ModelReport) :
    List ℕ → (ℕ → Option ModelReport) → (ℕ → Option ModelReport)
  | [], s => s
  | i :: rest, s => fill_slots rep rest (Function.update s i (some (rep i)))

/-- Modelled from the spec: the fan-out / fan-in orchestrator; it joins on
every worker and reads the slots back in configuration order
(modules/ai_engine.py is absent from the sources). -/
def generate_multi_model_reports (models : List String)
    (outcomes : ℕ → BackendOutcome) (sched : List ℕ) : List ModelReport :=
  let slots := fill_slots (worker_report models outcomes) sched (fun _ => none)
  (List.range models.length).map (fun i => (slots i).getD dummy_report)

theorem fill_slots_not_mem (rep : ℕ → ModelReport) :
    ∀ (l : List ℕ) (s : ℕ → Option ModelReport) (j : ℕ),
      j ∉ l → fill_slots rep l s j = s j
  | [], _, _, _ => rfl
  | i :: rest, s, j, hj => by
      have hji : j ≠ i := fun h => hj (h ▸ List.mem_cons_self i rest)
      have hjr : j ∉ rest := fun h => hj (List.mem_cons_of_mem i h)
      simp only [fill_slots]
      rw [fill_slots_not_mem rep rest _ j hjr, Function.update_noteq hji]

theorem fill_slots_mem (rep : ℕ → ModelReport) :
    ∀ (l : List ℕ) (s : ℕ → Option ModelReport) (j : ℕ),
      j ∈ l → fill_slots rep l s j = some (rep j)
  | [], _, _, hj => absurd hj (List.not_mem_nil _)
  | i :: rest, s, j, hj => by
      by_cases hr : j ∈ rest
      · simp only [fill_slots]
        exact fill_slots_mem rep rest _ j hr
      · have hji : j = i := by
          rcases List.mem_cons.mp hj with h | h
          · exact h
          · exact absurd h hr

        simp only [fill_slots]
        rw [fill_slots_not_mem rep rest _ j hr]
        subst hji
        simp [Function.update_same]

theorem generate_reports_getD (models : List String)
    (outcomes : ℕ → BackendOutcome) (sched : List ℕ)
    (hperm : sched.Perm (List.range models.length))
    (i : ℕ) (hi : i < models.length) :
    (generate_multi_model_reports models outcomes sched).getD i dummy_report =
      worker_report models outcomes i := by
  have hmem : i ∈ sched := hperm.mem_iff.mpr (List.mem_range.mpr hi)
  unfold generate_multi_model_reports
  rw [List.getD_eq_getElem?_getD, List.getElem?_map, List.getElem?_range hi]
  simp [fill_slots_mem _ sched _ i hmem]

/-! ## ConsensusBuilder (spec section 4.3) -/

/-- Modelled from the spec: the consensus record; the agreement field is
the spec's agreement ratio, majority count over classified count
(modules/ai_engine.py is absent from the sources). -/
structure ConsensusResult where
  verdict : Verdict
  bullish_votes : ℕ
  bearish_votes : ℕ
  neutral_votes : ℕ
  agreement : ℚ
  dissenting : List String
  no_data : Bool
deriving DecidableEq, Repr

/-- The success reports of a report list. -/
def success_reports (reports : List ModelReport) : List ModelReport :=
  reports.filter (fun r => decide (r.status = RStatus.success))

/-- The verdicts of the success reports, with unknown verdicts removed:
the population that actually votes. -/
def classified_verdicts (reports : List ModelReport) : List Verdict :=
  ((success_reports reports).map ModelReport.verdict).filter
    (fun v => decide (v ≠ Verdict.unknown))

/-- Modelled from the spec: tally votes among the success reports with a
classified verdict; a strict majority wins and any tie among the top
verdicts resolves to neutral; the agreement ratio is majority count over
classified count; with zero success reports the no_data flag is set
(modules/ai_engine.py is absent from the sources). -/
def get_consensus (reports : List ModelReport) : ConsensusResult :=
  let succ := success_reports reports
  let vs := classified_verdicts reports
  let b := vs.count Verdict.bullish
  let be := vs.count Verdict.bearish
  let n := vs.count Verdict.neutral
  let v :=
    if b > be ∧ b > n then Verdict.bullish
    else if be > b ∧ be > n then Verdict.bearish
    else Verdict.neutral
  { verdict := v
    bullish_votes := b
    bearish_votes := be
    neutral_votes := n
    agreement := ((max b (max be n) : ℕ) : ℚ) / ((vs.length : ℕ) : ℚ)
    dissenting := (succ.filter (fun r => decide (r.verdict ≠ v))).map
      ModelReport.model_id
    no_data := succ.isEmpty }

/-! ## SummarySynthesizer (spec section 4.4) -/

/-- Modelled from the spec: engine configuration passed as data — the
model list, the timeout, the retry budget, and the explicitly designated
summarizer model (modules/ai_engine.py is absent from the sources). -/
structure EngineConfig where
  models : List String
  designated_summarizer : String
  timeout_seconds : ℕ
  retry_budget : ℕ
deriving DecidableEq, Repr

/-- Modelled from the spec: the executive summary record
(modules/ai_engine.py is absent from the sources). -/
structure ExecutiveSummary where
  text : String
  source_model_id : String
  derived_from : List String
deriving DecidableEq, Repr

/-- Printable name of a verdict. -/
def verdict_name : Verdict → String
  | Verdict.bullish => "bullish"
  | Verdict.bearish => "bearish"
  | Verdict.neutral => "neutral"
  | Verdict.unknown => "unknown"

/-- Modelled from the spec: the deterministic template fallback, built
directly from the consensus record, always including the ticker and the
consensus verdict, and a no-consensus indication when no model succeeded
(modules/ai_engine.py is absent from the sources). -/
def fallback_summary (ticker : String) (c : ConsensusResult) : String :=
  if c.no_data then
    ticker ++ (": no consensus available, every model failed.")
  else
    ticker ++ (": consensus verdict is ") ++ verdict_name c.verdict ++ (".")

/-- Modelled from the spec: the summary synthesizer asks the explicitly
designated model for a synthesis; on the no-data condition or any failure
of the designated model it falls back to the deterministic template and
never raises (modules/ai_engine.py is absent from the sources). -/
def generate_executive_summary (cfg : EngineConfig)
    (reports : List ModelReport) (c : ConsensusResult)
    (ticker company_name : String) (backend : BackendOutcome) :
    ExecutiveSummary :=
  let derived := reports.map ModelReport.model_id
  if c.no_data then
    { text := fallback_summary ticker c,
      source_model_id := cfg.designated_summarizer, derived_from := derived }
  else
    match backend with
    | BackendOutcome.ok text =>
        { text := text, source_model_id := cfg.designated_summarizer,
          derived_from := derived }
    | _ =>
        { text := fallback_summary ticker c,
          source_model_id := cfg.designated_summarizer,
          derived_from := derived }

/-- Modelled from the spec: the full engine pipeline — fan-out, fan-in,
consensus, synthesis — as one total function of the configuration, the
per-slot backend outcomes, the completion order, and the designated
summarizer's backend outcome
(modules/ai_engine.py is absent from the sources). -/
def run_full_analysis (cfg : EngineConfig) (outcomes : ℕ → BackendOutcome)
    (sched : List ℕ) (sum_backend : BackendOutcome)
    (ticker company_name : String) :
    List ModelReport × ConsensusResult × ExecutiveSummary :=
  let reports := generate_multi_model_reports cfg.models outcomes sched
  let c := get_consensus reports
  (reports, c,
    generate_executive_summary cfg reports c ticker company_name sum_backend)

/-! ## PromptBuilder (spec section 4.1) -/

/-- Modelled from the spec: key fundamental ratios, each possibly missing
(modules/ai_engine.py is absent from the sources). -/
structure Fundamentals where
  pe_ratio : Option String
  market_cap : Option String
  revenue_growth : Option String
  profit_margin : Option String
deriving DecidableEq, Repr

/-- Modelled from the spec: price, moving averages and momentum
indicators, each possibly missing
(modules/ai_engine.py is absent from the sources). -/
structure Technicals where
  price : Option String
  ma50 : Option String
  ma200 : Option String
  rsi : Option String
deriving DecidableEq, Repr

/-- Modelled from the spec: one news item
(modules/ai_engine.py is absent from the sources). -/
structure NewsItem where
  headline : String
  snippet : String
  date : String
deriving DecidableEq, Repr

/-- A missing optional field renders as the explicit placeholder. -/
def field_str (v : Option String) : String :=
  v.getD ("N/A")

/-- Modelled from the spec: the news digest is capped at five items, and
an empty news list renders the fixed placeholder line
(modules/ai_engine.py is absent from the sources). -/
def news_lines (news : List NewsItem) : List String :=
  if news.isEmpty then [("No recent news")]
  else (news.take 5).map (fun item =>
    ("- ") ++ item.headline ++ (" (") ++ item.date ++ ("): ") ++ item.snippet)

/-- Modelled from the spec: the fixed-structure prompt as its list of
lines — identity, fundamentals, technicals and news digest sections
(modules/ai_engine.py is absent from the sources). -/
def prompt_lines (ticker company_name : String) (f : Fundamentals)
    (t : Technicals) (news : List NewsItem) : List String :=
  [("Analyze ") ++ company_name ++ (" (") ++ ticker ++ (")"),
   ("FUNDAMENTALS:"),
   ("P/E Ratio: ") ++ field_str f.pe_ratio,
   ("Market Cap: ") ++ field_str f.market_cap,
   ("Revenue Growth: ") ++ field_str f.revenue_growth,
   ("Profit Margin: ") ++ field_str f.profit_margin,
   ("TECHNICALS:"),
   ("Price: ") ++ field_str t.price,
   ("50-Day MA: ") ++ field_str t.ma50,
   ("200-Day MA: ") ++ field_str t.ma200,
   ("RSI: ") ++ field_str t.rsi,
   ("NEWS:")] ++ news_lines news

/-- Modelled from the spec: the deterministic analysis prompt text, the
prompt lines joined by newlines
(modules/ai_engine.py is absent from the sources). -/
def build_analysis_prompt (ticker company_name : String) (f : Fundamentals)
    (t : Technicals) (news : List NewsItem) : String :=
  String.intercalate ("\n") (prompt_lines ticker company_name f t news)

/-! ## Ticker search (embedded from titan_terminal.py, get_ticker_from_name) -/

/-- One entry of the search response's quotes array; every key the code
reads may be absent from the JSON object. -/
structure Quote where
  symbol : Option String
  longname : Option String
  shortname : Option String
  exchange : Option String
  quoteType : Option String
deriving DecidableEq, Repr

/-- The observable outcome of the HTTP search request: either some raised
exception (network error, JSON decode error, and so on), or a decoded
response whose quotes key may be absent. -/
inductive SearchOutcome
  | exn
  | ok (quotes : Option (List Quote))
deriving DecidableEq, Repr

/-- The dictionary returned on a successful lookup; its fields are exactly
the keys symbol, name, exchange and type of the Python dict literal. -/
structure TickerInfo where
  symbol : String
  name : String
  exchange : String
  qtype : String
deriving DecidableEq, Repr

/-- Embedded from titan_terminal.py, get_ticker_from_name.  The whole body
runs inside a try block whose handler returns None, so a raised exception
yields none; a missing or empty quotes array yields none; otherwise the
first quote is read.  Indexing the quote with a missing symbol key raises
KeyError, caught by the same handler; note the Python default argument of
dict.get is evaluated eagerly, so the symbol lookup happens even when
longname is present. -/
def get_ticker_from_name (o : SearchOutcome) : Option TickerInfo :=
  match o with
  | SearchOutcome.exn => none
  | SearchOutcome.ok none => none
  | SearchOutcome.ok (some []) => none
  | SearchOutcome.ok (some (best :: _)) =>
      match best.symbol with
      | none => none
      | some s =>
          some { symbol := s,
                 name := best.longname.getD (best.shortname.getD s),
                 exchange := best.exchange.getD ("Unknown"),
                 qtype := best.quoteType.getD ("EQUITY") }

/-! ## Watchlist persistence (embedded from titan_terminal.py) -/

/-- A JSON value, as json.load can return it. -/
inductive JsonVal
  | obj (fields : List (String × JsonVal))
  | arr (items : List JsonVal)
  | str (s : String)
  | num (n : ℤ)
  | boolean (b : Bool)
  | null

/-- The observable state of the watchlist file: absent, present but
unreadable or unparsable, or present with a parsed JSON value. -/
inductive WatchlistFile
  | missing
  | unreadable
  | parsed (v : JsonVal)

/-- The default watchlist value of titan_terminal.py. -/
def empty_watchlist : JsonVal :=
  JsonVal.obj [(("stocks"), JsonVal.arr [])]

/-- Embedded from titan_terminal.py, load_watchlist: if the file exists it
tries json.load, returning the stocks-empty default on any exception; if
the file does not exist it returns the same default; a successfully
parsed value is returned unchanged, whatever it is. -/
def load_watchlist : WatchlistFile → JsonVal
  | WatchlistFile.missing => empty_watchlist
  | WatchlistFile.unreadable => empty_watchlist
  | WatchlistFile.parsed v => v

/-- Whether a JSON value is an object carrying the given key. -/
def json_has_key (v : JsonVal) (k : String) : Bool :=
  match v with
  | JsonVal.obj fields => fields.any (fun p => p.1 == k)
  | _ => false

/-! ## Watchlist removal (embedded from titan_terminal.py, manage_watchlist) -/

/-- One watchlist entry as stored by the Add branch. -/
structure WStock where
  symbol : String
  name : String
  added : String
deriving DecidableEq, Repr

/-- Accumulate decimal digits; any non-digit character fails the parse. -/
def digits_val : List Char → ℕ → Option ℕ
  | [], acc => some acc
  | c :: rest, acc =>
      if c.isDigit then digits_val rest (acc * 10 + (c.toNat - 48)) else none

/-- A non-empty all-digit run parses to its value. -/
def parse_nat (cs : List Char) : Option ℕ :=
  match cs with
  | [] => none
  | _ :: _ => digits_val cs 0

/-- Surrounding whitespace removed. -/
def trim_chars (cs : List Char) : List Char :=
  ((cs.dropWhile Char.isWhitespace).reverse.dropWhile Char.isWhitespace).reverse

/-- The Python built-in int applied to a string: surrounding whitespace is
ignored, an optional sign is allowed, and the rest must be a non-empty
digit run; anything else raises ValueError, modelled as none. -/
def python_int (s : String) : Option ℤ :=
  match trim_chars s.toList with
  | ('+') :: rest => (parse_nat rest).map (fun n => (n : ℤ))
  | ('-') :: rest => (parse_nat rest).map (fun n => -(n : ℤ))
  | cs => (parse_nat cs).map (fun n => (n : ℤ))

/-- Embedded from titan_terminal.py, manage_watchlist, branch R: the entered
text goes through int() inside a try whose handler leaves the list alone;
the parsed value minus one is bounds-checked, and only an in-range index
pops that entry and saves the watchlist.  The returned flag records
whether the list was modified and saved. -/
def remove_stock (input : String) (stocks : List WStock) :
    List WStock × Bool :=
  match python_int input with
  | none => (stocks, false)
  | some k =>
      let idx := k - 1
      if 0 ≤ idx ∧ idx < (stocks.length : ℤ) then
        (stocks.eraseIdx idx.toNat, true)
      else
        (stocks, false)

/-! ## Theorems -/

/-- C8: get_ticker_from_name is total over its embedding: a raised
exception yields None, a missing quotes key yields None, an empty quotes
array yields None, and on every input the result is either None or a
record with exactly the keys symbol, name, exchange and type; it never
raises to its caller. -/
theorem get_ticker_total_shape :
    (get_ticker_from_name SearchOutcome.exn = none)
    ∧ (get_ticker_from_name (SearchOutcome.ok none) = none)
    ∧ (get_ticker_from_name (SearchOutcome.ok (some [])) = none)
    ∧ (∀ o : SearchOutcome, get_ticker_from_name o = none ∨
        ∃ s n e t, get_ticker_from_name o = some ⟨s, n, e, t⟩) := by
  refine ⟨rfl, rfl, rfl, ?_⟩
  intro o
  match o with
  | SearchOutcome.exn => exact Or.inl rfl
  | SearchOutcome.ok none => exact Or.inl rfl
  | SearchOutcome.ok (some []) => exact Or.inl rfl
  | SearchOutcome.ok (some (best :: rest)) =>
      match h : best.symbol with
      | none =>
          exact Or.inl (by simp [get_ticker_from_name, h])
      | some s =>
          exact Or.inr ⟨s, best.longname.getD (best.shortname.getD s),
            best.exchange.getD ("Unknown"), best.quoteType.getD ("EQUITY"),
            by simp [get_ticker_from_name, h]⟩

/-- C9 counterexample: a watchlist file holding the valid JSON text of an
empty object is parsed and returned as-is, so the returned value does not
contain the key stocks, refuting the claim that load_watchlist always
returns a dict containing that key. -/
theorem load_watchlist_missing_stocks_key :
    json_has_key (load_watchlist (WatchlistFile.parsed (JsonVal.obj [])))
      ("stocks") = false := rfl

/-- C9 amended: load_watchlist never raises; when the file is missing, or
exists but cannot be opened or parsed as JSON, it returns the default
object carrying the key stocks with an empty array; a successfully parsed
value is returned unchanged, whether or not it carries that key. -/
theorem load_watchlist_amended :
    (load_watchlist WatchlistFile.missing = empty_watchlist)
    ∧ (load_watchlist WatchlistFile.unreadable = empty_watchlist)
    ∧ (∀ v, load_watchlist (WatchlistFile.parsed v) = v)
    ∧ json_has_key empty_watchlist ("stocks") = true :=
  ⟨rfl, rfl, fun _ => rfl, rfl⟩

/-- C10: the watchlist remove branch deletes an entry, and saves, exactly
when the entered text parses as an integer k with 1 between k and the
list length inclusive, in which case the entry at position k minus one is
removed; a non-integer or out-of-range input leaves the list unchanged
and unsaved. -/
theorem remove_stock_spec (s : String) (stocks : List WStock) :
    (∀ k : ℤ, python_int s = some k → 1 ≤ k → k ≤ (stocks.length : ℤ) →
      remove_stock s stocks = (stocks.eraseIdx (k - 1).toNat, true))
    ∧ (python_int s = none → remove_stock s stocks = (stocks, false))
    ∧ (∀ k : ℤ, python_int s = some k →
        (k < 1 ∨ (stocks.length : ℤ) < k) →
        remove_stock s stocks = (stocks, false))
    ∧ (∀ res, remove_stock s stocks = (res, true) →
        ∃ k : ℤ, python_int s = some k ∧ 1 ≤ k ∧ k ≤ (stocks.length : ℤ) ∧
          res = stocks.eraseIdx (k - 1).toNat) := by
  refine ⟨?_, ?_, ?_, ?_⟩
  · intro k hk h1 h2
    simp only [remove_stock, hk]
    rw [if_pos]
    omega
  · intro hk
    simp [remove_stock, hk]
  · intro k hk hout
    simp only [remove_stock, hk]
    rw [if_neg]
    omega
  · intro res hres
    rcases hk : python_int s with _ | k
    · simp only [remove_stock, hk] at hres
      exact absurd (congrArg Prod.snd hres) (by simp)
    · simp only [remove_stock, hk] at hres
      by_cases hcond : 0 ≤ k - 1 ∧ k - 1 < (stocks.length : ℤ)
      · rw [if_pos hcond] at hres
        exact ⟨k, rfl, by omega, by omega,
          (congrArg Prod.fst hres).symm⟩
      · rw [if_neg hcond] at hres
        exact absurd (congrArg Prod.snd hres) (by simp)

/-- C10 witness: removing entry number 2 from a three-entry watchlist
deletes exactly the middle entry and saves. -/
theorem remove_stock_spec_witness :
    remove_stock ("2")
        [⟨("A"), ("Alpha"), ("d1")⟩, ⟨("B"), ("Beta"), ("d2")⟩,
         ⟨("C"), ("Gamma"), ("d3")⟩]
      = ([⟨("A"), ("Alpha"), ("d1")⟩, ⟨("B"), ("Beta"), ("d2")⟩,
          ⟨("C"), ("Gamma"), ("d3")⟩].eraseIdx (((2 : ℤ) - 1).toNat), true) :=
  (remove_stock_spec ("2")
    [⟨("A"), ("Alpha"), ("d1")⟩, ⟨("B"), ("Beta"), ("d2")⟩,
     ⟨("C"), ("Gamma"), ("d3")⟩]).1 2 (by decide) (by decide) (by decide)

/-- C1: for every configured ordered list of N models, the orchestrator
returns exactly N reports and the report in slot i is the i-th configured
model's worker report, for every completion order of the workers. -/
theorem multi_model_reports_order_stable (models : List String)
    (outcomes : ℕ → BackendOutcome) (sched : List ℕ)
    (hperm : sched.Perm (List.range models.length)) :
    (generate_multi_model_reports models outcomes sched).length = models.length
    ∧ ∀ i, i < models.length →
        (generate_multi_model_reports models outcomes sched).getD i dummy_report
          = worker_report models outcomes i := by
  constructor
  · simp [generate_multi_model_reports]
  · intro i hi
    exact generate_reports_getD models outcomes sched hperm i hi

/-- C1 witness: two configured models completing in reverse order still
give two reports, slot by slot in configuration order. -/
theorem multi_model_reports_order_stable_witness :
    (generate_multi_model_reports (["a", "b"])
        (fun _ => BackendOutcome.timeout) ([1, 0])).length = 2
    ∧ (generate_multi_model_reports (["a", "b"])
        (fun _ => BackendOutcome.timeout) ([1, 0])).getD 0 dummy_report
        = worker_report (["a", "b"]) (fun _ => BackendOutcome.timeout) 0 := by
  have h := multi_model_reports_order_stable (["a", "b"])
    (fun _ => BackendOutcome.timeout) ([1, 0]) (by decide)
  exact ⟨h.1, h.2 0 (by decide)⟩

/-- C5: the executive summary's source model is the explicitly configured
designated summarizer on every invocation, never a model picked by list
position. -/
theorem summary_source_is_designated (cfg : EngineConfig)
    (reports : List ModelReport) (c : ConsensusResult)
    (ticker company_name : String) (backend : BackendOutcome) :
    (generate_executive_summary cfg reports c ticker company_name
        backend).source_model_id = cfg.designated_summarizer := by
  unfold generate_executive_summary
  by_cases h : c.no_data
  · simp [h]
  · simp only [h]
    cases backend <;> simp

/-- C7: the prompt builder is deterministic and total; an empty news list
renders the fixed placeholder line, and a missing fundamentals or
technicals field renders as the explicit placeholder. -/
theorem build_prompt_total_deterministic (ticker company_name : String)
    (f : Fundamentals) (t : Technicals) (news : List NewsItem) :
    (build_analysis_prompt ticker company_name f t news
      = build_analysis_prompt ticker company_name f t news)
    ∧ (news = [] →
        ("No recent news") ∈ prompt_lines ticker company_name f t news)
    ∧ (f.pe_ratio = none →
        ("P/E Ratio: N/A") ∈ prompt_lines ticker company_name f t news)
    ∧ (t.price = none →
        ("Price: N/A") ∈ prompt_lines ticker company_name f t news) := by
  refine ⟨rfl, ?_, ?_, ?_⟩
  · intro h
    simp [prompt_lines, news_lines, h]
  · intro h
    simp [prompt_lines, field_str, h]
  · intro h
    simp [prompt_lines, field_str, h]

/-- C7 witness: on a concrete input with no news and missing fields the
placeholders appear among the prompt lines. -/
theorem build_prompt_total_deterministic_witness :
    ("No recent news") ∈ prompt_lines ("AAPL") ("Apple")
        ⟨none, none, none, none⟩ ⟨none, none, none, none⟩ []
    ∧ ("P/E Ratio: N/A") ∈ prompt_lines ("AAPL") ("Apple")
        ⟨none, none, none, none⟩ ⟨none, none, none, none⟩ []
    ∧ ("Price: N/A") ∈ prompt_lines ("AAPL") ("Apple")
        ⟨none, none, none, none⟩ ⟨none, none, none, none⟩ [] := by
  have h := build_prompt_total_deterministic ("AAPL") ("Apple")
    ⟨none, none, none, none⟩ ⟨none, none, none, none⟩ []
  exact ⟨h.2.1 rfl, h.2.2.1 rfl, h.2.2.2 rfl⟩

theorem classified_no_unknown (reports : List ModelReport) :
    ∀ v ∈ classified_verdicts reports, v ≠ Verdict.unknown := by
  intro v hv
  have h := (List.mem_filter.mp hv).2
  simpa using h

theorem verdict_count_partition :
    ∀ l : List Verdict, (∀ v ∈ l, v ≠ Verdict.unknown) →
      l.count Verdict.bullish + l.count Verdict.bearish
        + l.count Verdict.neutral = l.length
  | [], _ => rfl
  | a :: l, h => by
      have hl := verdict_count_partition l (fun v hv => h v (List.mem_cons_of_mem a hv))
      have ha := h a (List.mem_cons_self a l)
      cases a <;> simp [List.count_cons] at * <;> omega

/-- C2: whenever the top verdict counts tie, the consensus verdict is
neutral, never bullish or bearish; in particular two bullish against two
bearish classified success reports yield the neutral verdict with
agreement ratio one half. -/
theorem consensus_tie_resolves_neutral (reports : List ModelReport) :
    (((classified_verdicts reports).count Verdict.bullish = 2 →
      (classified_verdicts reports).count Verdict.bearish = 2 →
      (classified_verdicts reports).count Verdict.neutral = 0 →
      (get_consensus reports).verdict = Verdict.neutral
      ∧ (get_consensus reports).agreement = 1 / 2))
    ∧ ((((classified_verdicts reports).count Verdict.bullish
          = (classified_verdicts reports).count Verdict.bearish
         ∧ (classified_verdicts reports).count Verdict.neutral
            ≤ (classified_verdicts reports).count Verdict.bullish)
        ∨ ((classified_verdicts reports).count Verdict.bullish
            = (classified_verdicts reports).count Verdict.neutral
           ∧ (classified_verdicts reports).count Verdict.bearish
              ≤ (classified_verdicts reports).count Verdict.bullish)
        ∨ ((classified_verdicts reports).count Verdict.bearish
            = (classified_verdicts reports).count Verdict.neutral
           ∧ (classified_verdicts reports).count Verdict.bullish
              ≤ (classified_verdicts reports).count Verdict.bearish))
       → (get_consensus reports).verdict = Verdict.neutral) := by
  constructor
  · intro hb hbe hn
    have hlen := verdict_count_partition (classified_verdicts reports)
      (classified_no_unknown reports)
    constructor
    · simp only [get_consensus, hb, hbe, hn]
      norm_num
    · simp only [get_consensus, hb, hbe, hn]
      rw [hb, hbe, hn] at hlen
      rw [← hlen]
      norm_num
  · intro htie
    simp only [get_consensus]
    rcases htie with ⟨h1, h2⟩ | ⟨h1, h2⟩ | ⟨h1, h2⟩ <;>
      · rw [if_neg, if_neg] <;> omega

/-- Concrete report list used to witness the consensus tie case: four
success reports, two classifying bullish and two bearish. -/
def tie_reports : List ModelReport :=
  [run_worker ("m1") (BackendOutcome.ok ("Very bullish outlook")),
   run_worker ("m2") (BackendOutcome.ok ("I am bullish here")),
   run_worker ("m3") (BackendOutcome.ok ("bearish signs everywhere")),
   run_worker ("m4") (BackendOutcome.ok ("clearly bearish data"))]

/-- C2 witness: the documented two-against-two tie yields the neutral
verdict with agreement ratio one half. -/
theorem consensus_tie_resolves_neutral_witness :
    (get_consensus tie_reports).verdict = Verdict.neutral
    ∧ (get_consensus tie_reports).agreement = 1 / 2 :=
  (consensus_tie_resolves_neutral tie_reports).1
    (by decide) (by decide) (by decide)

/-- C3: with zero successful reports the consensus sets its no_data flag
instead of raising, and the summary synthesizer returns the deterministic
fallback text, which embeds the ticker and a no-consensus indication. -/
theorem all_failed_no_data_fallback (cfg : EngineConfig)
    (reports : List ModelReport) (ticker company_name : String)
    (backend : BackendOutcome)
    (h : ∀ r ∈ reports, r.status ≠ RStatus.success) :
    (get_consensus reports).no_data = true
    ∧ (generate_executive_summary cfg reports (get_consensus reports)
        ticker company_name backend).text
        = ticker ++ (": no consensus available, every model failed.")
    ∧ (∃ a b, (generate_executive_summary cfg reports (get_consensus reports)
        ticker company_name backend).text = a ++ ticker ++ b)
    ∧ (∃ p q, (generate_executive_summary cfg reports (get_consensus reports)
        ticker company_name backend).text = p ++ ("no consensus") ++ q) := by
  have hsucc : success_reports reports = [] := by
    apply List.filter_eq_nil_iff.mpr
    intro r hr
    simpa using h r hr
  have hnd : (get_consensus reports).no_data = true := by
    simp [get_consensus, hsucc]
  have htext : (generate_executive_summary cfg reports (get_consensus reports)
      ticker company_name backend).text
      = ticker ++ (": no consensus available, every model failed.") := by
    simp [generate_executive_summary, hnd, fallback_summary]
  refine ⟨hnd, htext, ⟨("") , (": no consensus available, every model failed."), ?_⟩, ?_⟩
  · rw [htext]
    rfl
  · refine ⟨ticker ++ (": "), (" available, every model failed."), ?_⟩
    rw [htext, String.append_assoc, String.append_assoc]
    rfl

/-- C3 witness: a single connection-failure report gives the no_data
consensus and the fallback text for a concrete ticker. -/
theorem all_failed_no_data_fallback_witness :
    (get_consensus [run_worker ("m1") (BackendOutcome.connFailure ("down"))]).no_data = true
    ∧ (generate_executive_summary ⟨[("m1")], ("m1"), 120, 1⟩
        [run_worker ("m1") (BackendOutcome.connFailure ("down"))]
        (get_consensus [run_worker ("m1") (BackendOutcome.connFailure ("down"))])
        ("AAPL") ("Apple") BackendOutcome.timeout).text
        = ("AAPL") ++ (": no consensus available, every model failed.") := by
  have h := all_failed_no_data_fallback ⟨[("m1")], ("m1"), 120, 1⟩
    [run_worker ("m1") (BackendOutcome.connFailure ("down"))]
    ("AAPL") ("Apple") BackendOutcome.timeout (by decide)
  exact ⟨h.1, h.2.1⟩

/-- C4: every per-model backend error is recovered into that model's
report as a status and an error detail; the caller still receives the
complete report list together with the consensus and the summary computed
from it, and no exception reaches the caller. -/
theorem per_model_errors_recovered (cfg : EngineConfig)
    (outcomes : ℕ → BackendOutcome) (sched : List ℕ)
    (sum_backend : BackendOutcome) (ticker company_name : String)
    (hperm : sched.Perm (List.range cfg.models.length)) :
    ((run_full_analysis cfg outcomes sched sum_backend ticker
        company_name).1.length = cfg.models.length)
    ∧ (∀ i msg, i < cfg.models.length →
        outcomes i = BackendOutcome.connFailure msg →
        ((run_full_analysis cfg outcomes sched sum_backend ticker
            company_name).1.getD i dummy_report).status = RStatus.failure
        ∧ ((run_full_analysis cfg outcomes sched sum_backend ticker
            company_name).1.getD i dummy_report).error_detail = some msg)
    ∧ (∀ i, i < cfg.models.length → outcomes i = BackendOutcome.timeout →
        ((run_full_analysis cfg outcomes sched sum_backend ticker
            company_name).1.getD i dummy_report).status = RStatus.timeout
        ∧ ((run_full_analysis cfg outcomes sched sum_backend ticker
            company_name).1.getD i dummy_report).error_detail
            = some ("timed out"))
    ∧ (∀ i msg, i < cfg.models.length →
        outcomes i = BackendOutcome.protocolError msg →
        ((run_full_analysis cfg outcomes sched sum_backend ticker
            company_name).1.getD i dummy_report).status = RStatus.failure
        ∧ ((run_full_analysis cfg outcomes sched sum_backend ticker
            company_name).1.getD i dummy_report).error_detail = some msg)
    ∧ ((run_full_analysis cfg outcomes sched sum_backend ticker
        company_name).2.1
        = get_consensus (run_full_analysis cfg outcomes sched sum_backend
            ticker company_name).1)
    ∧ ((run_full_analysis cfg outcomes sched sum_backend ticker
        company_name).2.2
        = generate_executive_summary cfg
            (run_full_analysis cfg outcomes sched sum_backend ticker
              company_name).1
            (run_full_analysis cfg outcomes sched sum_backend ticker
              company_name).2.1
            ticker company_name sum_backend) := by
  have hfst : (run_full_analysis cfg outcomes sched sum_backend ticker
      company_name).1 = generate_multi_model_reports cfg.models outcomes
      sched := rfl
  refine ⟨?_, ?_, ?_, ?_, rfl, rfl⟩
  · rw [hfst]
    simp [generate_multi_model_reports]
  · intro i msg hi hmsg
    rw [hfst, generate_reports_getD cfg.models outcomes sched hperm i hi]
    simp [worker_report, hmsg, run_worker]
  · intro i hi hmsg
    rw [hfst, generate_reports_getD cfg.models outcomes sched hperm i hi]
    simp [worker_report, hmsg, run_worker]
  · intro i msg hi hmsg
    rw [hfst, generate_reports_getD cfg.models outcomes sched hperm i hi]
    simp [worker_report, hmsg, run_worker]

/-- C4 witness: with one model whose connection fails the caller still
gets a one-entry report list recording the failure. -/
theorem per_model_errors_recovered_witness :
    ((run_full_analysis ⟨[("m1")], ("m1"), 120, 1⟩
        (fun _ => BackendOutcome.connFailure ("down")) ([0])
        BackendOutcome.timeout ("AAPL") ("Apple")).1.length = 1)
    ∧ ((run_full_analysis ⟨[("m1")], ("m1"), 120, 1⟩
        (fun _ => BackendOutcome.connFailure ("down")) ([0])
        BackendOutcome.timeout ("AAPL") ("Apple")).1.getD 0
          dummy_report).status = RStatus.failure := by
  have h := per_model_errors_recovered ⟨[("m1")], ("m1"), 120, 1⟩
    (fun _ => BackendOutcome.connFailure ("down")) ([0])
    BackendOutcome.timeout ("AAPL") ("Apple") (by decide)
  exact ⟨h.1, (h.2.1 0 ("down") (by decide) rfl).1⟩

theorem filter_eraseIdx_of_not {α : Type} (p : α → Bool) (d : α) :
    ∀ (l : List α) (i : ℕ), i < l.length → p (l.getD i d) = false →
      (l.eraseIdx i).filter p = l.filter p
  | [], i, h, _ => absurd h (by simp)
  | a :: l, 0, _, hp => by
      simp only [List.getD_cons_zero] at hp
      simp [List.eraseIdx, List.filter_cons, hp]
  | a :: l, i + 1, h, hp => by
      have h' : i < l.length := by simpa using h
      have hp' : p (l.getD i d) = false := by
        simpa [List.getD_cons_succ] using hp
      simp only [List.eraseIdx, List.filter_cons]
      rw [filter_eraseIdx_of_not p d l i h' hp']

theorem get_consensus_congr (l1 l2 : List ModelReport)
    (h : success_reports l1 = success_reports l2) :
    get_consensus l1 = get_consensus l2 := by
  unfold get_consensus classified_verdicts
  rw [h]

/-- C6: a timed-out model yields a status-timeout report, its vote is
excluded from the consensus tally (the consensus equals the one computed
with its slot removed), and every other slot's report is identical to the
run where only that model's backend outcome differs. -/
theorem timeout_isolated (models : List String)
    (outcomes outcomes2 : ℕ → BackendOutcome) (sched : List ℕ) (i : ℕ)
    (hperm : sched.Perm (List.range models.length))
    (hi : i < models.length)
    (hto : outcomes i = BackendOutcome.timeout)
    (hagree : ∀ j, j ≠ i → outcomes2 j = outcomes j) :
    ((generate_multi_model_reports models outcomes sched).getD i
        dummy_report).status = RStatus.timeout
    ∧ (∀ j, j < models.length → j ≠ i →
        (generate_multi_model_reports models outcomes sched).getD j
            dummy_report
          = (generate_multi_model_reports models outcomes2 sched).getD j
            dummy_report)
    ∧ get_consensus (generate_multi_model_reports models outcomes sched)
        = get_consensus
            ((generate_multi_model_reports models outcomes sched).eraseIdx
              i) := by
  have hstat : ((generate_multi_model_reports models outcomes sched).getD i
      dummy_report).status = RStatus.timeout := by
    rw [generate_reports_getD models outcomes sched hperm i hi]
    simp [worker_report, hto, run_worker]
  refine ⟨hstat, ?_, ?_⟩
  · intro j hj hne
    rw [generate_reports_getD models outcomes sched hperm j hj,
      generate_reports_getD models outcomes2 sched hperm j hj]
    simp [worker_report, hagree j hne]
  · apply get_consensus_congr
    have hlen : i < (generate_multi_model_reports models outcomes
        sched).length := by
      simpa [generate_multi_model_reports] using hi
    have hfail : (fun r => decide (r.status = RStatus.success))
        ((generate_multi_model_reports models outcomes sched).getD i
          dummy_report) = false :=
      decide_eq_false (by rw [hstat]; decide)
    exact (filter_eraseIdx_of_not
      (fun r => decide (r.status = RStatus.success)) dummy_report
      (generate_multi_model_reports models outcomes sched) i hlen
      hfail).symm

/-- Backend outcomes used by the C6 witness: slot zero times out, every
other slot answers bullish. -/
def w_outcomes (j : ℕ) : BackendOutcome :=
  if j = 0 then BackendOutcome.timeout
  else BackendOutcome.ok ("bullish")

/-- Counterfactual backend outcomes used by the C6 witness: every slot
answers bullish. -/
def w_outcomes2 (_ : ℕ) : BackendOutcome :=
  BackendOutcome.ok ("bullish")

/-- C6 witness: with two configured models and slot zero timed out, slot
zero's report has the timeout status, slot one's report matches the run
where slot zero did not time out, and the consensus ignores slot zero. -/
theorem timeout_isolated_witness :
    ((generate_multi_model_reports (["a", "b"]) w_outcomes ([0, 1])).getD 0
        dummy_report).status = RStatus.timeout
    ∧ (generate_multi_model_reports (["a", "b"]) w_outcomes ([0, 1])).getD 1
        dummy_report
        = (generate_multi_model_reports (["a", "b"]) w_outcomes2
            ([0, 1])).getD 1 dummy_report
    ∧ get_consensus (generate_multi_model_reports (["a", "b"]) w_outcomes
        ([0, 1]))
        = get_consensus ((generate_multi_model_reports (["a", "b"])
            w_outcomes ([0, 1])).eraseIdx 0) := by
  have h := timeout_isolated (["a", "b"]) w_outcomes w_outcomes2 ([0, 1]) 0
    (by decide) (by decide) (by decide)
    (fun j hj => by simp [w_outcomes, w_outcomes2, hj])
  exact ⟨h.1, h.2.1 1 (by decide) (by decide), h.2.2⟩

end Titan
